import Mathlib

set_option maxRecDepth 8000

/-!
Shallow embedding of the TODO backend (`packages/backend/src/app.js`):
a single `tasks` table held in memory and five route handlers
(GET/POST/PUT/PATCH-complete/DELETE on `/api/tasks`).  Request-body
fields are JavaScript values (possibly `undefined`); handlers are pure
functions from a store, a clock value (standing for
`CURRENT_TIMESTAMP`) and the request to the new store plus a response.
An `Except.error` carries the HTTP status and the `error` string of the
JSON body; `Except.ok` stands for the 2xx JSON response.
-/

namespace TodoApp

/-- A JavaScript value as it can appear in a parsed JSON request-body
field.  `undef` models a field that is absent from the body (object
destructuring yields `undefined`). -/
inductive JVal where
  | undef
  | null
  | bool (b : Bool)
  | num (n : Int)
  | str (s : String)
deriving DecidableEq, Repr

/-- JavaScript truthiness of a `JVal` (as used by `!title`,
`description || null`, `completed ? 1 : 0`, ...). -/
def JVal.truthy : JVal → Bool
  | .undef => false
  | .null => false
  | .bool b => b
  | .num n => n != 0
  | .str s => s != ""

/-- Model of `typeof v === 'string'`. -/
def JVal.isStr : JVal → Bool
  | .str _ => true
  | _ => false

/-- The string carried by a `JVal`; only used on values known to be
strings (mirrors JavaScript code that calls string methods after a
`typeof` check). -/
def JVal.asStr : JVal → String
  | .str s => s
  | _ => ""

/-- One row of the `tasks` table.  `completed` is the INTEGER column
(0/1 under normal operation), timestamps are abstract clock values. -/
structure Task where
  id : Nat
  title : String
  description : JVal
  completed : Nat
  priority : String
  due_date : JVal
  created_at : Nat
  updated_at : Nat
deriving DecidableEq, Repr

/-- The in-memory database: the rows of the `tasks` table in insertion
order, and the next AUTOINCREMENT id. -/
structure Store where
  tasks : List Task
  nextId : Nat
deriving DecidableEq, Repr

/-- A request body for POST/PUT: each field is a JavaScript value,
`JVal.undef` meaning the field is absent. -/
structure ReqBody where
  title : JVal := .undef
  description : JVal := .undef
  priority : JVal := .undef
  due_date : JVal := .undef
  completed : JVal := .undef
deriving DecidableEq, Repr

/-- An error response: HTTP status plus the `error` string. -/
structure ApiError where
  status : Nat
  error : String
deriving DecidableEq, Repr

def titleRequiredErr : ApiError := ⟨400, "Task title is required"⟩
def titleLengthErr : ApiError := ⟨400, "Task title must be 200 characters or less"⟩
def invalidPriorityErr : ApiError := ⟨400, "Invalid priority level"⟩
def notFoundErr : ApiError := ⟨404, "Task not found"⟩
def invalidIdErr : ApiError := ⟨400, "Valid task ID is required"⟩

/-- `const validPriorities = ['high', 'medium', 'low']`. -/
def validPriorities : List String := ["high", "medium", "low"]

/-- `validPriorities.includes(priority)` for a request-body value:
strict equality, so only a string can match. -/
def isValidPriority : JVal → Bool
  | .str s => validPriorities.contains s
  | _ => false

/-- JavaScript whitespace (the ASCII part), as skipped by `trim()` and
`parseInt`. -/
def jsWhitespace (c : Char) : Bool :=
  c == ' ' || c == '\t' || c == '\n' || c == '\r' || c == '\x0b' || c == '\x0c'

/-- Model of JavaScript `s.trim()`: drop whitespace from both ends.
Defined structurally over the character list so that it evaluates. -/
def jsTrim (s : String) : String :=
  String.mk (((s.data.dropWhile jsWhitespace).reverse.dropWhile jsWhitespace).reverse)

/-- The shared title guard
`!title || typeof title !== 'string' || title.trim() === ''`. -/
def titleBad (v : JVal) : Bool :=
  !v.truthy || !v.isStr || jsTrim v.asStr == ""

/-- JavaScript whitespace skipping for `parseInt`. -/
def dropWs (cs : List Char) : List Char :=
  cs.dropWhile jsWhitespace

/-- An optional leading sign; returns whether it was a minus and the
remaining characters. -/
def readSign : List Char → Bool × List Char
  | '-' :: cs => (true, cs)
  | '+' :: cs => (false, cs)
  | cs => (false, cs)

/-- Value of a run of decimal digits. -/
def digitsToNat (ds : List Char) : Nat :=
  ds.foldl (fun a c => a * 10 + (c.toNat - '0'.toNat)) 0

/-- Model of JavaScript `parseInt(s)` with radix 10: skip leading
whitespace, read an optional sign, then a maximal run of decimal
digits; `none` models the `NaN` result when no digit is found.
Hexadecimal `0x` prefixes are not interpreted; such strings begin with
the digit `0`, so whether the result is `NaN` agrees with JavaScript. -/
def jsParseInt (s : String) : Option Int :=
  let cs := dropWs s.data
  let p := readSign cs
  let ds := p.2.takeWhile Char.isDigit
  if ds.isEmpty then none
  else some (if p.1 then -(digitsToNat ds : Int) else (digitsToNat ds : Int))

/-- Model of SQLite comparing the INTEGER `id` column against a bound
text parameter: the text matches a row when it is an integer literal
(optional surrounding whitespace, optional sign, digits).  Text in any
other form is treated as matching no row. -/
def sqlTextInt (s : String) : Option Int :=
  if (dropWs ((readSign (dropWs s.data)).2.dropWhile Char.isDigit)).isEmpty then
    jsParseInt s
  else none

/-- `SELECT * FROM tasks WHERE id = ?` bound to the raw path segment:
first row whose id matches the text under SQLite affinity. -/
def findTask (st : Store) (idStr : String) : Option Task :=
  match sqlTextInt idStr with
  | none => none
  | some n => st.tasks.find? (fun t => (t.id : Int) == n)

/-- Query string of `GET /api/tasks`. -/
structure Query where
  status : Option String := none
  priority : Option String := none
  sort : Option String := none
deriving DecidableEq, Repr

/-- The WHERE clause built piecewise by the list handler:
`completed = 0` / `completed = 1` when `status` is `active` /
`completed`, and `priority = ?` when the `priority` parameter is
truthy and one of the allowed values (the two clauses are ANDed onto
`1=1`). -/
def whereClause (q : Query) (t : Task) : Bool :=
  (if q.status = some "active" then t.completed == 0
   else if q.status = some "completed" then t.completed == 1
   else true) &&
  (match q.priority with
   | some p =>
     if p != "" && validPriorities.contains p then t.priority == p else true
   | none => true)

/-- The `CASE priority WHEN 'high' THEN 1 WHEN 'medium' THEN 2 WHEN
'low' THEN 3 END` sort key; any other priority yields NULL, which
SQLite orders first, modelled as rank 0. -/
def priRank (p : String) : Nat :=
  if p = "high" then 1 else if p = "medium" then 2 else if p = "low" then 3 else 0

/-- Whether a stored `due_date` is SQL NULL. -/
def dueNull (t : Task) : Nat :=
  if t.due_date = JVal.null ∨ t.due_date = JVal.undef then 1 else 0

/-- Approximate SQLite ascending value order for `due_date` values:
NULL first, then numbers, then text. -/
def jvalAscLe : JVal → JVal → Bool
  | .undef, _ => true
  | .null, _ => true
  | _, .undef => false
  | _, .null => false
  | .bool x, .bool y => !x || y
  | .bool _, _ => true
  | _, .bool _ => false
  | .num x, .num y => decide (x ≤ y)
  | .num _, .str _ => true
  | .str _, .num _ => false
  | .str x, .str y => decide (x ≤ y)

/-- The four ORDER BY clauses of the list handler (sorting is modelled
as a stable sort by the SQL key). -/
def sortTasks (sort : Option String) (l : List Task) : List Task :=
  if sort = some "due_date" then
    l.mergeSort (fun a b =>
      decide (dueNull a < dueNull b) ||
        (dueNull a == dueNull b && jvalAscLe a.due_date b.due_date))
  else if sort = some "priority" then
    l.mergeSort (fun a b => decide (priRank a.priority ≤ priRank b.priority))
  else if sort = some "title" then
    l.mergeSort (fun a b => decide (a.title ≤ b.title))
  else
    l.mergeSort (fun a b => decide (b.created_at ≤ a.created_at))

/-- `GET /api/tasks`: the filtered rows, ordered by the selected sort
key. -/
def getTasks (st : Store) (q : Query) : List Task :=
  sortTasks q.sort (st.tasks.filter (whereClause q))

/-- The row INSERTed by the create handler: trimmed title, `|| null`
defaults for description and due date, normalized priority
(`priority && validPriorities.includes(priority) ? priority : 'medium'`),
completed 0 and fresh timestamps. -/
def createRow (id : Nat) (now : Nat) (b : ReqBody) : Task :=
  { id := id
    title := jsTrim b.title.asStr
    description := if b.description.truthy then b.description else .null
    completed := 0
    priority :=
      if b.priority.truthy && isValidPriority b.priority then b.priority.asStr
      else "medium"
    due_date := if b.due_date.truthy then b.due_date else .null
    created_at := now
    updated_at := now }

/-- Modelled from the spec side of the list-filter claim: status
`active` keeps rows with completed 0, status `completed` keeps rows
with completed 1; a priority parameter equal to one of the three
levels keeps exactly that priority; any other value of either
parameter (or its absence) applies no filter.  Used only to compare
with `whereClause`. -/
def claimFilter (q : Query) (t : Task) : Bool :=
  (if q.status = some "active" then t.completed == 0
   else if q.status = some "completed" then t.completed == 1
   else true) &&
  (match q.priority with
   | some p => if validPriorities.contains p then t.priority == p else true
   | none => true)

/-- `POST /api/tasks`: validate the title, normalize the priority,
insert the row (completed defaults to 0, both timestamps to now) and
return the created row (a 201 response). -/
def postTask (st : Store) (now : Nat) (b : ReqBody) : Store × Except ApiError Task :=
  if titleBad b.title then
    (st, .error titleRequiredErr)
  else if b.title.asStr.length > 200 then
    (st, .error titleLengthErr)
  else
    ({ tasks := st.tasks ++ [createRow st.nextId now b], nextId := st.nextId + 1 },
      .ok (createRow st.nextId now b))

/-- The row produced by the dynamic UPDATE: exactly the supplied
fields are overwritten (title trimmed, completed coerced with
`completed ? 1 : 0`), `updated_at` is set to now; id and `created_at`
are not in the SET list. -/
def mergeRow (now : Nat) (b : ReqBody) (t0 : Task) : Task :=
  { id := t0.id
    title := if b.title != .undef then jsTrim b.title.asStr else t0.title
    description := if b.description != .undef then b.description else t0.description
    completed :=
      if b.completed != .undef then (if b.completed.truthy then 1 else 0)
      else t0.completed
    priority := if b.priority != .undef then b.priority.asStr else t0.priority
    due_date := if b.due_date != .undef then b.due_date else t0.due_date
    created_at := t0.created_at
    updated_at := now }

/-- `PUT /api/tasks/:id`: id-form check, lookup, title and priority
validation, then a dynamic UPDATE of exactly the supplied fields plus
`updated_at`; returns the re-selected row. -/
def putTask (st : Store) (now : Nat) (idStr : String) (b : ReqBody) :
    Store × Except ApiError Task :=
  if idStr == "" || (jsParseInt idStr).isNone then
    (st, .error invalidIdErr)
  else
    match findTask st idStr with
    | none => (st, .error notFoundErr)
    | some t0 =>
      if b.title != .undef && titleBad b.title then
        (st, .error titleRequiredErr)
      else if b.title != .undef && b.title.asStr.length > 200 then
        (st, .error titleLengthErr)
      else if b.priority != .undef && !isValidPriority b.priority then
        (st, .error invalidPriorityErr)
      else
        ({ st with
            tasks := st.tasks.map (fun t => if t.id == t0.id then mergeRow now b t0 else t) },
          .ok (mergeRow now b t0))

/-- The row written by the completion toggle:
`completed === 1 ? 0 : 1` and a fresh `updated_at`. -/
def toggleRow (now : Nat) (t0 : Task) : Task :=
  { t0 with
    completed := if t0.completed == 1 then 0 else 1
    updated_at := now }

/-- `PATCH /api/tasks/:id/complete`: id-form check, lookup, flip
`completed` (`=== 1 ? 0 : 1`), refresh `updated_at`, return the row. -/
def toggleTask (st : Store) (now : Nat) (idStr : String) :
    Store × Except ApiError Task :=
  if idStr == "" || (jsParseInt idStr).isNone then
    (st, .error invalidIdErr)
  else
    match findTask st idStr with
    | none => (st, .error notFoundErr)
    | some t0 =>
      ({ st with
          tasks := st.tasks.map (fun t => if t.id == t0.id then toggleRow now t0 else t) },
        .ok (toggleRow now t0))

/-- The 200 body of a successful DELETE:
`{ message: ..., id: parseInt(id) }`. -/
structure DeleteReply where
  message : String
  id : Int
deriving DecidableEq, Repr

/-- `DELETE /api/tasks/:id`: id-form check, lookup, delete the row;
when the statement reports at least one change, reply with the message
and the parsed id, otherwise 404. -/
def deleteTask (st : Store) (idStr : String) : Store × Except ApiError DeleteReply :=
  if idStr == "" || (jsParseInt idStr).isNone then
    (st, .error invalidIdErr)
  else
    match findTask st idStr with
    | none => (st, .error notFoundErr)
    | some t0 =>
      if st.tasks.length - (st.tasks.filter (fun t => !(t.id == t0.id))).length > 0 then
        ({ st with tasks := st.tasks.filter (fun t => !(t.id == t0.id)) },
          .ok ⟨"Task deleted successfully", (jsParseInt idStr).getD 0⟩)
      else
        (st, .error notFoundErr)

/-- The seeded database: the three `initialTasks` inserted at startup
(ids 1..3, completed 0, default timestamps taken as 0). -/
def initStore : Store :=
  { tasks :=
      [ { id := 1, title := "Complete project documentation",
          description := .str "Write comprehensive docs for the TODO app",
          completed := 0, priority := "high", due_date := .str "2026-02-15",
          created_at := 0, updated_at := 0 },
        { id := 2, title := "Review pull requests",
          description := .str "Review and merge pending PRs",
          completed := 0, priority := "medium", due_date := .str "2026-02-14",
          created_at := 0, updated_at := 0 },
        { id := 3, title := "Update dependencies",
          description := .str "Check and update npm packages",
          completed := 0, priority := "low", due_date := .null,
          created_at := 0, updated_at := 0 } ],
    nextId := 4 }

/-- A title of 200 letters followed by one space: its untrimmed length
is 201 while its trimmed length is 200. -/
def overlongTitle : String := String.mk (List.replicate 200 'a' ++ [' '])

/-- One mutating API call (the list endpoint does not change state). -/
inductive Op where
  | create (now : Nat) (b : ReqBody)
  | update (now : Nat) (idStr : String) (b : ReqBody)
  | toggle (now : Nat) (idStr : String)
  | remove (idStr : String)

/-- State transition of one call. -/
def applyOp (st : Store) : Op → Store
  | .create now b => (postTask st now b).1
  | .update now idStr b => (putTask st now idStr b).1
  | .toggle now idStr => (toggleTask st now idStr).1
  | .remove idStr => (deleteTask st idStr).1

/-- Run a sequence of calls from a store. -/
def runOps (st : Store) (ops : List Op) : Store :=
  ops.foldl applyOp st

/-- The row invariant: completed is 0/1 and priority is one of the
three levels. -/
def GoodTask (t : Task) : Prop :=
  (t.completed = 0 ∨ t.completed = 1) ∧ t.priority ∈ validPriorities

/-- Every row of the store satisfies the row invariant. -/
def GoodStore (st : Store) : Prop :=
  ∀ t ∈ st.tasks, GoodTask t

/-! Helper lemmas. -/

theorem jsTrim_of_empty : jsTrim "" = "" := rfl

theorem titleBad_true_iff (v : JVal) :
    titleBad v = true ↔ ∀ s, v = .str s → jsTrim s = "" := by
  cases v with
  | str s =>
    constructor
    · intro h u hu
      cases hu
      simp only [titleBad, JVal.truthy, JVal.isStr, JVal.asStr, Bool.not_true,
        Bool.or_false, Bool.false_or, bne, Bool.not_not, Bool.or_eq_true,
        beq_iff_eq] at h
      rcases h with h | h
      · rw [h]; rfl
      · exact h
    · intro h
      have hs := h s rfl
      simp [titleBad, JVal.isStr, JVal.asStr, hs]
  | undef => simp [titleBad, JVal.truthy]
  | null => simp [titleBad, JVal.truthy]
  | bool b => simp [titleBad, JVal.isStr]
  | num n => simp [titleBad, JVal.isStr]

theorem titleBad_str_false_iff (s : String) :
    titleBad (JVal.str s) = false ↔ jsTrim s ≠ "" := by
  rw [← Bool.not_eq_true, titleBad_true_iff]
  constructor
  · intro h hs
    exact h (fun u hu => by cases hu; exact hs)
  · intro h hb
    exact h (hb s rfl)

theorem jsParseInt_of_sqlTextInt {s : String} {n : Int}
    (h : sqlTextInt s = some n) : jsParseInt s = some n := by
  unfold sqlTextInt at h
  split at h
  · exact h
  · exact absurd h (by simp)

theorem sqlTextInt_ne_empty {s : String} {n : Int}
    (h : sqlTextInt s = some n) : s ≠ "" := by
  intro hs
  rw [hs] at h
  have he : sqlTextInt "" = none := by decide
  rw [he] at h
  exact Option.noConfusion h

theorem findTask_elim {st : Store} {idStr : String} {t0 : Task}
    (h : findTask st idStr = some t0) :
    ∃ n, sqlTextInt idStr = some n ∧
      st.tasks.find? (fun t => (t.id : Int) == n) = some t0 ∧ (t0.id : Int) = n := by
  unfold findTask at h
  split at h
  · exact absurd h (by simp)
  · rename_i n hn
    refine ⟨n, hn, h, ?_⟩
    have := List.find?_some h
    simpa using this

theorem mem_of_findTask {st : Store} {idStr : String} {t0 : Task}
    (h : findTask st idStr = some t0) : t0 ∈ st.tasks := by
  obtain ⟨n, _, hf, _⟩ := findTask_elim h
  exact List.mem_of_find?_eq_some hf

theorem idGuard_false_of_findTask {st : Store} {idStr : String} {t0 : Task}
    (h : findTask st idStr = some t0) :
    (idStr == "" || (jsParseInt idStr).isNone) = false := by
  obtain ⟨n, hn, _, _⟩ := findTask_elim h
  have h1 : idStr ≠ "" := sqlTextInt_ne_empty hn
  have h2 : jsParseInt idStr = some n := jsParseInt_of_sqlTextInt hn
  simp [h1, h2]

theorem find?_replace {l : List Task} {n : Int} {t0 t1 : Task}
    (hid : t1.id = t0.id) (hn : (t0.id : Int) = n)
    (h : l.find? (fun t => (t.id : Int) == n) = some t0) :
    (l.map (fun t => if t.id == t0.id then t1 else t)).find?
      (fun t => (t.id : Int) == n) = some t1 := by
  induction l with
  | nil => simp at h
  | cons x xs ih =>
    rw [List.find?_cons] at h
    by_cases hx : ((x.id : Int) == n) = true
    · rw [hx] at h
      have hxt : x = t0 := by simpa using h
      subst hxt
      have ht1 : ((t1.id : Int) == n) = true := by simp [hid, hn]
      simp [List.find?_cons, ht1]
    · rw [Bool.not_eq_true] at hx
      rw [hx] at h
      simp only at h
      have hne : (x.id == t0.id) = false := by
        simp only [beq_eq_false_iff_ne, ne_eq]
        intro he
        rw [Bool.eq_false_iff] at hx
        exact hx (by simp [he, hn])
      simp only [List.map_cons, List.find?_cons, hne, Bool.false_eq_true, if_false, hx]
      exact ih h

theorem findTask_replace {st : Store} {idStr : String} {t0 t1 : Task}
    (h : findTask st idStr = some t0) (hid : t1.id = t0.id) :
    findTask
      { st with tasks := st.tasks.map (fun t => if t.id == t0.id then t1 else t) }
      idStr = some t1 := by
  obtain ⟨n, hn, hf, hn0⟩ := findTask_elim h
  unfold findTask
  rw [hn]
  exact find?_replace hid hn0 hf

theorem findTask_after_delete {st : Store} {idStr : String} {t0 : Task}
    (h : findTask st idStr = some t0) :
    findTask { st with tasks := st.tasks.filter (fun t => !(t.id == t0.id)) }
      idStr = none := by
  obtain ⟨n, hn, _, hn0⟩ := findTask_elim h
  unfold findTask
  rw [hn]
  simp only []
  rw [List.find?_eq_none]
  intro x hx
  rw [List.mem_filter] at hx
  have : x.id ≠ t0.id := by simpa using hx.2
  simp only [beq_eq_false_iff_ne, ne_eq, beq_iff_eq]
  intro he
  exact this (by exact_mod_cast he.trans hn0.symm)

theorem length_filter_lt {p : Task → Bool} {x : Task} {l : List Task}
    (hx : x ∈ l) (hp : p x = false) : (l.filter p).length < l.length := by
  induction l with
  | nil => cases hx
  | cons y ys ih =>
    rcases List.mem_cons.mp hx with rfl | hmem
    · simp only [List.filter_cons, hp, Bool.false_eq_true, if_false, List.length_cons]
      exact Nat.lt_succ_of_le (List.length_filter_le p ys)
    · simp only [List.filter_cons]
      cases hpy : p y
      · simp only [Bool.false_eq_true, if_false, List.length_cons]
        exact Nat.lt_succ_of_lt (ih hmem)
      · simp only [if_true, List.length_cons]
        exact Nat.succ_lt_succ (ih hmem)

theorem sortTasks_perm (s : Option String) (l : List Task) :
    (sortTasks s l).Perm l := by
  unfold sortTasks
  split
  · exact List.mergeSort_perm l _
  · split
    · exact List.mergeSort_perm l _
    · split
      · exact List.mergeSort_perm l _
      · exact List.mergeSort_perm l _

theorem mem_sortTasks {t : Task} {s : Option String} {l : List Task} :
    t ∈ sortTasks s l ↔ t ∈ l :=
  (sortTasks_perm s l).mem_iff

theorem whereClause_eq_claimFilter (q : Query) (t : Task) :
    whereClause q t = claimFilter q t := by
  unfold whereClause claimFilter
  cases hq : q.priority with
  | none => rfl
  | some p =>
    by_cases hp : p = ""
    · subst hp
      rfl
    · simp [hp]

theorem postTask_ok {st : Store} {now : Nat} {b : ReqBody}
    (hb : titleBad b.title = false) (hl : b.title.asStr.length ≤ 200) :
    postTask st now b =
      ({ tasks := st.tasks ++ [createRow st.nextId now b], nextId := st.nextId + 1 },
        .ok (createRow st.nextId now b)) := by
  unfold postTask
  rw [hb]
  simp only [Bool.false_eq_true, if_false]
  rw [if_neg (by omega)]

theorem postTask_err_required {st : Store} {now : Nat} {b : ReqBody}
    (hb : titleBad b.title = true) :
    postTask st now b = (st, .error titleRequiredErr) := by
  unfold postTask
  rw [hb]
  simp

theorem postTask_err_length {st : Store} {now : Nat} {b : ReqBody}
    (hb : titleBad b.title = false) (hl : b.title.asStr.length > 200) :
    postTask st now b = (st, .error titleLengthErr) := by
  unfold postTask
  rw [hb]
  simp only [Bool.false_eq_true, if_false]
  rw [if_pos hl]

theorem putTask_found {st : Store} {now : Nat} {idStr : String} {b : ReqBody} {t0 : Task}
    (hfind : findTask st idStr = some t0) :
    putTask st now idStr b =
      (if b.title != .undef && titleBad b.title then
        (st, .error titleRequiredErr)
      else if b.title != .undef && b.title.asStr.length > 200 then
        (st, .error titleLengthErr)
      else if b.priority != .undef && !isValidPriority b.priority then
        (st, .error invalidPriorityErr)
      else
        ({ st with
            tasks := st.tasks.map (fun t => if t.id == t0.id then mergeRow now b t0 else t) },
          .ok (mergeRow now b t0))) := by
  unfold putTask
  rw [idGuard_false_of_findTask hfind]
  simp only [Bool.false_eq_true, if_false, hfind]

theorem toggleTask_found {st : Store} {now : Nat} {idStr : String} {t0 : Task}
    (hfind : findTask st idStr = some t0) :
    toggleTask st now idStr =
      ({ st with
          tasks := st.tasks.map (fun t => if t.id == t0.id then toggleRow now t0 else t) },
        .ok (toggleRow now t0)) := by
  unfold toggleTask
  rw [idGuard_false_of_findTask hfind]
  simp only [Bool.false_eq_true, if_false, hfind]

theorem titleCondsFalse {b : ReqBody}
    (htitle : b.title = .undef ∨ ∃ s, b.title = .str s ∧ jsTrim s ≠ "" ∧ s.length ≤ 200) :
    (b.title != JVal.undef && titleBad b.title) = false ∧
      (b.title != JVal.undef && decide (b.title.asStr.length > 200)) = false := by
  rcases htitle with h | ⟨s, hs, ht, hl⟩
  · constructor <;> simp [h]
  · have hb : titleBad b.title = false := by
      rw [hs]
      exact (titleBad_str_false_iff s).mpr ht
    constructor
    · simp [hb]
    · rw [hs]
      simp only [JVal.asStr, Bool.and_eq_false_iff, decide_eq_false_iff_not, not_lt]
      right
      exact hl

theorem priCondFalse {b : ReqBody}
    (hpri : b.priority = .undef ∨ isValidPriority b.priority = true) :
    (b.priority != JVal.undef && !isValidPriority b.priority) = false := by
  rcases hpri with h | h <;> simp [h]

theorem putTask_ok {st : Store} {now : Nat} {idStr : String} {b : ReqBody} {t0 : Task}
    (hfind : findTask st idStr = some t0)
    (htitle : b.title = .undef ∨ ∃ s, b.title = .str s ∧ jsTrim s ≠ "" ∧ s.length ≤ 200)
    (hpri : b.priority = .undef ∨ isValidPriority b.priority = true) :
    putTask st now idStr b =
      ({ st with
          tasks := st.tasks.map (fun t => if t.id == t0.id then mergeRow now b t0 else t) },
        .ok (mergeRow now b t0)) := by
  obtain ⟨h1, h2⟩ := titleCondsFalse htitle
  have h3 := priCondFalse hpri
  rw [putTask_found hfind]
  simp only [h1, h2, h3, Bool.false_eq_true, if_false]

theorem deleteTask_found {st : Store} {idStr : String} {t0 : Task}
    (hfind : findTask st idStr = some t0) :
    deleteTask st idStr =
      ({ st with tasks := st.tasks.filter (fun t => !(t.id == t0.id)) },
        .ok ⟨"Task deleted successfully", (t0.id : Int)⟩) := by
  obtain ⟨n, hn, _, hn0⟩ := findTask_elim hfind
  have hjs : jsParseInt idStr = some n := jsParseInt_of_sqlTextInt hn
  have hlt : (st.tasks.filter (fun t => !(t.id == t0.id))).length < st.tasks.length :=
    length_filter_lt (mem_of_findTask hfind) (by simp)
  unfold deleteTask
  rw [idGuard_false_of_findTask hfind]
  simp only [Bool.false_eq_true, if_false, hfind]
  rw [if_pos (by omega)]
  rw [hjs]
  simp only [Option.getD_some, ← hn0]

example : jsParseInt "abc" = none := by decide
example : jsParseInt " 12abc" = some 12 := by decide
example : sqlTextInt "12abc" = none := by decide
example : sqlTextInt " 3 " = some 3 := by decide
example : findTask initStore "2" = some (initStore.tasks.get ⟨1, by decide⟩) := by decide

/-! Claim theorems. -/

/-- C10: for every update request and every toggle-completion request
whose id path segment does not parse as a number (`parseInt` yields
NaN), the response is 400 with error "Valid task ID is required", for
any store and any payload, and the store is untouched (the failure is
produced before any store read or write). -/
theorem spec_C10 (st : Store) (now : Nat) (idStr : String) (b : ReqBody)
    (h : jsParseInt idStr = none) :
    putTask st now idStr b = (st, .error invalidIdErr) ∧
      toggleTask st now idStr = (st, .error invalidIdErr) := by
  have hg : (idStr == "" || (jsParseInt idStr).isNone) = true := by simp [h]
  constructor
  · unfold putTask
    rw [hg]
    simp
  · unfold toggleTask
    rw [hg]
    simp

/-- C10 witness: the malformed id "abc" on the seeded store, with an
arbitrary payload. -/
theorem spec_C10_witness :
    jsParseInt "abc" = none ∧
      putTask initStore 5 "abc" {} = (initStore, .error invalidIdErr) ∧
      toggleTask initStore 5 "abc" = (initStore, .error invalidIdErr) :=
  ⟨by decide, spec_C10 initStore 5 "abc" {} (by decide)⟩

/-- C7: an update request whose well-formed id matches no stored
record is answered 404 with error "Task not found" regardless of the
payload (in particular an invalid title or invalid priority in the
payload does not change the error, since the lookup precedes all
payload validation), and the store is unchanged. -/
theorem spec_C7 (st : Store) (now : Nat) (idStr : String) (b : ReqBody)
    (hid : jsParseInt idStr ≠ none) (hne : idStr ≠ "")
    (h : findTask st idStr = none) :
    putTask st now idStr b = (st, .error notFoundErr) := by
  have hg : (idStr == "" || (jsParseInt idStr).isNone) = false := by
    cases hj : jsParseInt idStr with
    | none => exact absurd hj hid
    | some n => simp [hne, hj]
  unfold putTask
  rw [hg]
  simp only [Bool.false_eq_true, if_false, h]

/-- C7 witness: updating id 999 on the seeded store with a payload
whose title and priority are both invalid still yields "Task not
found". -/
theorem spec_C7_witness :
    jsParseInt "999" ≠ none ∧ ("999" : String) ≠ "" ∧
      findTask initStore "999" = none ∧
      putTask initStore 7 "999" { title := .str "", priority := .str "bad" } =
        (initStore, .error notFoundErr) :=
  ⟨by decide, by decide, by decide,
    spec_C7 initStore 7 "999" { title := .str "", priority := .str "bad" }
      (by decide) (by decide) (by decide)⟩

/-- C8: deleting an existing task succeeds (200) with the confirmation
message and the deleted task's numeric id, and removes exactly the
rows with that id from the store, so a second delete of the same id
fails with 404 "Task not found" and leaves the store unchanged. -/
theorem spec_C8 (st : Store) (idStr : String) (t0 : Task)
    (hfind : findTask st idStr = some t0) :
    ∃ st', deleteTask st idStr =
        (st', .ok ⟨"Task deleted successfully", (t0.id : Int)⟩) ∧
      st'.tasks = st.tasks.filter (fun t => !(t.id == t0.id)) ∧
      deleteTask st' idStr = (st', .error notFoundErr) := by
  refine ⟨_, deleteTask_found hfind, rfl, ?_⟩
  have h2 : findTask
      { st with tasks := st.tasks.filter (fun t => !(t.id == t0.id)) } idStr = none :=
    findTask_after_delete hfind
  have hg := idGuard_false_of_findTask hfind
  unfold deleteTask
  rw [hg]
  simp only [Bool.false_eq_true, if_false, h2]

/-- C8 witness: deleting id 1 on the seeded store, twice. -/
theorem spec_C8_witness :
    findTask initStore "1" = some
      ⟨1, "Complete project documentation",
        .str "Write comprehensive docs for the TODO app", 0, "high",
        .str "2026-02-15", 0, 0⟩ ∧
    ∃ st', deleteTask initStore "1" = (st', .ok ⟨"Task deleted successfully", 1⟩) ∧
      st'.tasks = initStore.tasks.filter (fun t => !(t.id == 1)) ∧
      deleteTask st' "1" = (st', .error notFoundErr) :=
  ⟨by decide, spec_C8 initStore "1"
    ⟨1, "Complete project documentation",
      .str "Write comprehensive docs for the TODO app", 0, "high",
      .str "2026-02-15", 0, 0⟩ (by decide)⟩

/-- C6: one toggle-completion call on an existing task flips completed
between 0 and 1 (it is never set to any other value, and not to an
arbitrary payload-chosen value: the handler takes no payload) and sets
`updated_at` to the call time; applying the toggle twice returns the
task to its original completed value. -/
theorem spec_C6 (st : Store) (now1 now2 : Nat) (idStr : String) (t0 : Task)
    (hfind : findTask st idStr = some t0)
    (hc : t0.completed = 0 ∨ t0.completed = 1) :
    ∃ st1 t1, toggleTask st now1 idStr = (st1, .ok t1) ∧
      t1.completed = 1 - t0.completed ∧ t1.completed ≠ t0.completed ∧
      (t1.completed = 0 ∨ t1.completed = 1) ∧ t1.updated_at = now1 ∧
      ∃ st2 t2, toggleTask st1 now2 idStr = (st2, .ok t2) ∧
        t2.completed = t0.completed := by
  refine ⟨_, _, toggleTask_found hfind, ?_, ?_, ?_, rfl, ?_⟩
  · rcases hc with h | h <;> simp [toggleRow, h]
  · rcases hc with h | h <;> simp [toggleRow, h]
  · rcases hc with h | h <;> simp [toggleRow, h]
  · have hfind2 : findTask
        { st with
          tasks := st.tasks.map (fun t => if t.id == t0.id then toggleRow now1 t0 else t) }
        idStr = some (toggleRow now1 t0) :=
      findTask_replace hfind rfl
    refine ⟨_, _, toggleTask_found hfind2, ?_⟩
    rcases hc with h | h <;> simp [toggleRow, h]

/-- C6 witness: toggling id 2 of the seeded store at times 3 and 4. -/
theorem spec_C6_witness :
    findTask initStore "2" = some
      ⟨2, "Review pull requests", .str "Review and merge pending PRs", 0,
        "medium", .str "2026-02-14", 0, 0⟩ ∧
    ∃ st1 t1, toggleTask initStore 3 "2" = (st1, .ok t1) ∧
      t1.completed = 1 - 0 ∧ t1.completed ≠ 0 ∧
      (t1.completed = 0 ∨ t1.completed = 1) ∧ t1.updated_at = 3 ∧
      ∃ st2 t2, toggleTask st1 4 "2" = (st2, .ok t2) ∧ t2.completed = 0 :=
  ⟨by decide, spec_C6 initStore 3 4 "2"
    ⟨2, "Review pull requests", .str "Review and merge pending PRs", 0,
      "medium", .str "2026-02-14", 0, 0⟩ (by decide) (Or.inl rfl)⟩

/-- C5: on a successful update of an existing task exactly the
supplied fields take their new values (title stored trimmed, completed
coerced to 1/0), every omitted field keeps its previous value,
`updated_at` is set to the call time, and neither update nor toggle
ever changes a task's id or `created_at`. -/
theorem spec_C5 (st : Store) (now : Nat) (idStr : String) (b : ReqBody) (t0 : Task)
    (hfind : findTask st idStr = some t0)
    (htitle : b.title = .undef ∨ ∃ s, b.title = .str s ∧ jsTrim s ≠ "" ∧ s.length ≤ 200)
    (hpri : b.priority = .undef ∨ isValidPriority b.priority = true) :
    ∃ st' t1, putTask st now idStr b = (st', .ok t1) ∧
      st'.tasks = st.tasks.map (fun t => if t.id == t0.id then t1 else t) ∧
      t1.id = t0.id ∧ t1.created_at = t0.created_at ∧ t1.updated_at = now ∧
      (b.title = .undef → t1.title = t0.title) ∧
      (∀ s, b.title = .str s → t1.title = jsTrim s) ∧
      (b.description = .undef → t1.description = t0.description) ∧
      (b.description ≠ .undef → t1.description = b.description) ∧
      (b.priority = .undef → t1.priority = t0.priority) ∧
      (b.priority ≠ .undef → t1.priority = b.priority.asStr) ∧
      (b.due_date = .undef → t1.due_date = t0.due_date) ∧
      (b.due_date ≠ .undef → t1.due_date = b.due_date) ∧
      (b.completed = .undef → t1.completed = t0.completed) ∧
      (b.completed ≠ .undef → t1.completed = (if b.completed.truthy then 1 else 0)) ∧
      (∀ m, ∃ st2 t2, toggleTask st m idStr = (st2, .ok t2) ∧
        t2.id = t0.id ∧ t2.created_at = t0.created_at) := by
  refine ⟨_, _, putTask_ok hfind htitle hpri, rfl, rfl, rfl, rfl,
    ?_, ?_, ?_, ?_, ?_, ?_, ?_, ?_, ?_, ?_, ?_⟩
  · intro h
    simp [mergeRow, h]
  · intro s hs
    simp [mergeRow, hs, JVal.asStr]
  · intro h
    simp [mergeRow, h]
  · intro h
    simp [mergeRow, bne_iff_ne, h]
  · intro h
    simp [mergeRow, h]
  · intro h
    simp [mergeRow, bne_iff_ne, h]
  · intro h
    simp [mergeRow, h]
  · intro h
    simp [mergeRow, bne_iff_ne, h]
  · intro h
    simp [mergeRow, h]
  · intro h
    simp [mergeRow, bne_iff_ne, h]
  · intro m
    exact ⟨_, _, toggleTask_found hfind, rfl, rfl⟩

/-- C5 witness: updating only the description of seeded task 3 leaves
title, priority, completion and `created_at` unchanged and refreshes
`updated_at`. -/
theorem spec_C5_witness :
    ∃ st' t1,
      putTask initStore 9 "3" { description := .str "write better docs" } = (st', .ok t1) ∧
      t1.title = "Update dependencies" ∧ t1.description = .str "write better docs" ∧
      t1.priority = "low" ∧ t1.completed = 0 ∧ t1.due_date = .null ∧
      t1.created_at = 0 ∧ t1.updated_at = 9 ∧ t1.id = 3 := by
  obtain ⟨st', t1, hput, hst, hid, hca, hua, htk, htn, hdk, hdn, hpk, hpn, hduk, hdun,
      hck, hcn, htog⟩ :=
    spec_C5 initStore 9 "3" { description := .str "write better docs" }
      ⟨3, "Update dependencies", .str "Check and update npm packages", 0, "low",
        .null, 0, 0⟩
      (by decide) (Or.inl rfl) (Or.inl rfl)
  exact ⟨st', t1, hput, htk rfl, hdn (by decide), hpk rfl, hck rfl, hduk rfl,
    hca, hua, hid⟩

/-- C1 counterexample: a title of 200 letters plus a trailing space
trims to a non-empty string of length 200, yet create rejects it with
the length error (the code checks `title.length`, the untrimmed
length, against 200), contradicting the claim that such a title passes
validation and is stored trimmed. -/
theorem spec_C1_cex :
    jsTrim overlongTitle ≠ "" ∧ (jsTrim overlongTitle).length ≤ 200 ∧
      postTask initStore 0 { title := .str overlongTitle } =
        (initStore, .error titleLengthErr) := by
  refine ⟨by decide, by decide, ?_⟩
  have hb : titleBad (JVal.str overlongTitle) = false := by decide
  have hl : (JVal.asStr (JVal.str overlongTitle)).length > 200 := by decide
  exact postTask_err_length hb hl

/-- C1 amended: for create and for update of an existing task, when a
title is supplied: a string title whose UNTRIMMED length is at most
200 and which trims to a non-empty string passes title validation and
the stored record's title is the trimmed string (for update, provided
the priority validation also passes); a missing, non-string or
blank-after-trim title fails with "Task title is required"; a title
passing the required check whose untrimmed length exceeds 200 fails
with "Task title must be 200 characters or less"; the required check
is applied before the length check. -/
theorem spec_C1_amended :
    (∀ (st : Store) (now : Nat) (b : ReqBody) (s : String),
      b.title = .str s → jsTrim s ≠ "" → s.length ≤ 200 →
      ∃ st' t, postTask st now b = (st', .ok t) ∧ t.title = jsTrim s) ∧
    (∀ (st : Store) (now : Nat) (b : ReqBody),
      (∀ s, b.title = .str s → jsTrim s = "") →
      postTask st now b = (st, .error titleRequiredErr)) ∧
    (∀ (st : Store) (now : Nat) (b : ReqBody) (s : String),
      b.title = .str s → jsTrim s ≠ "" → s.length > 200 →
      postTask st now b = (st, .error titleLengthErr)) ∧
    (∀ (st : Store) (now : Nat) (idStr : String) (b : ReqBody) (t0 : Task) (s : String),
      findTask st idStr = some t0 →
      b.title = .str s → jsTrim s ≠ "" → s.length ≤ 200 →
      (b.priority = .undef ∨ isValidPriority b.priority = true) →
      ∃ st' t, putTask st now idStr b = (st', .ok t) ∧ t.title = jsTrim s) ∧
    (∀ (st : Store) (now : Nat) (idStr : String) (b : ReqBody) (t0 : Task),
      findTask st idStr = some t0 →
      b.title ≠ .undef → (∀ s, b.title = .str s → jsTrim s = "") →
      putTask st now idStr b = (st, .error titleRequiredErr)) ∧
    (∀ (st : Store) (now : Nat) (idStr : String) (b : ReqBody) (t0 : Task) (s : String),
      findTask st idStr = some t0 →
      b.title = .str s → jsTrim s ≠ "" → s.length > 200 →
      putTask st now idStr b = (st, .error titleLengthErr)) := by
  refine ⟨?_, ?_, ?_, ?_, ?_, ?_⟩
  · intro st now b s hs ht hl
    have hb : titleBad b.title = false := by
      rw [hs]
      exact (titleBad_str_false_iff s).mpr ht
    have hl' : b.title.asStr.length ≤ 200 := by
      rw [hs]
      simpa [JVal.asStr] using hl
    exact ⟨_, _, postTask_ok hb hl', by simp [createRow, hs, JVal.asStr]⟩
  · intro st now b hbad
    exact postTask_err_required ((titleBad_true_iff _).mpr hbad)
  · intro st now b s hs ht hl
    have hb : titleBad b.title = false := by
      rw [hs]
      exact (titleBad_str_false_iff s).mpr ht
    have hl' : b.title.asStr.length > 200 := by
      rw [hs]
      simpa [JVal.asStr] using hl
    exact postTask_err_length hb hl'
  · intro st now idStr b t0 s hfind hs ht hl hp
    exact ⟨_, _, putTask_ok hfind (Or.inr ⟨s, hs, ht, hl⟩) hp,
      by simp [mergeRow, hs, JVal.asStr]⟩
  · intro st now idStr b t0 hfind hne hbad
    have h1 : (b.title != JVal.undef && titleBad b.title) = true := by
      simp [bne_iff_ne, hne, (titleBad_true_iff _).mpr hbad]
    rw [putTask_found hfind]
    simp only [h1, if_true]
  · intro st now idStr b t0 s hfind hs ht hl
    have hb : titleBad b.title = false := by
      rw [hs]
      exact (titleBad_str_false_iff s).mpr ht
    have h1 : (b.title != JVal.undef && titleBad b.title) = false := by simp [hb]
    have h2 : (b.title != JVal.undef && decide (b.title.asStr.length > 200)) = true := by
      rw [hs]
      simp only [JVal.asStr, Bool.and_eq_true, bne_iff_ne, ne_eq, decide_eq_true_eq]
      exact ⟨by simp, hl⟩
    rw [putTask_found hfind]
    simp only [h1, h2, Bool.false_eq_true, if_false, if_true]

/-- C1 amended witness: concrete create and update calls exercising
all six cases (trimmed storage, required error on a non-string and on
null, length error beyond 200 untrimmed characters). -/
theorem spec_C1_amended_witness :
    (∃ st' t, postTask initStore 1 { title := .str "  hi  " } = (st', .ok t) ∧
      t.title = jsTrim "  hi  ") ∧
    postTask initStore 1 { title := .num 5 } = (initStore, .error titleRequiredErr) ∧
    postTask initStore 1 { title := .str overlongTitle } =
      (initStore, .error titleLengthErr) ∧
    (∃ st' t, putTask initStore 2 "1" { title := .str " New title " } = (st', .ok t) ∧
      t.title = jsTrim " New title ") ∧
    putTask initStore 2 "1" { title := .null } = (initStore, .error titleRequiredErr) ∧
    putTask initStore 2 "1" { title := .str overlongTitle } =
      (initStore, .error titleLengthErr) := by
  refine ⟨?_, ?_, ?_, ?_, ?_, ?_⟩
  · exact spec_C1_amended.1 initStore 1 { title := .str "  hi  " } "  hi  "
      rfl (by decide) (by decide)
  · exact spec_C1_amended.2.1 initStore 1 { title := .num 5 }
      (fun s hs => JVal.noConfusion hs)
  · exact spec_C1_amended.2.2.1 initStore 1 { title := .str overlongTitle } overlongTitle
      rfl (by decide) (by decide)
  · exact spec_C1_amended.2.2.2.1 initStore 2 "1" { title := .str " New title " }
      ⟨1, "Complete project documentation",
        .str "Write comprehensive docs for the TODO app", 0, "high",
        .str "2026-02-15", 0, 0⟩
      " New title " (by decide) rfl (by decide) (by decide) (Or.inl rfl)
  · exact spec_C1_amended.2.2.2.2.1 initStore 2 "1" { title := .null }
      ⟨1, "Complete project documentation",
        .str "Write comprehensive docs for the TODO app", 0, "high",
        .str "2026-02-15", 0, 0⟩
      (by decide) (by decide) (fun s hs => JVal.noConfusion hs)
  · exact spec_C1_amended.2.2.2.2.2 initStore 2 "1" { title := .str overlongTitle }
      ⟨1, "Complete project documentation",
        .str "Write comprehensive docs for the TODO app", 0, "high",
        .str "2026-02-15", 0, 0⟩
      overlongTitle (by decide) rfl (by decide) (by decide)

/-- C2 counterexample: a create request carrying the invalid priority
"invalid" but no title does NOT succeed — it fails with the title
error — contradicting the claim that every create request with an
absent-or-invalid priority succeeds with priority "medium". -/
theorem spec_C2_cex :
    isValidPriority (JVal.str "invalid") = false ∧
      postTask initStore 0 { priority := .str "invalid" } =
        (initStore, .error titleRequiredErr) := by
  constructor
  · decide
  · exact postTask_err_required (by decide)

/-- C2 amended: a create request with a valid title whose priority is
absent or not one of high/medium/low succeeds and the created record
has priority "medium" (no error); an update request to an existing
task whose title passes validation (absent or valid) and whose
priority is present and not one of those values fails with "Invalid
priority level" and leaves the store unchanged.  (An invalid title
supplied in the same request fails earlier with the title error.) -/
theorem spec_C2_amended :
    (∀ (st : Store) (now : Nat) (b : ReqBody) (s : String),
      b.title = .str s → jsTrim s ≠ "" → s.length ≤ 200 →
      isValidPriority b.priority = false →
      ∃ st' t, postTask st now b = (st', .ok t) ∧ t.priority = "medium") ∧
    (∀ (st : Store) (now : Nat) (idStr : String) (b : ReqBody) (t0 : Task),
      findTask st idStr = some t0 →
      (b.title = .undef ∨ ∃ s, b.title = .str s ∧ jsTrim s ≠ "" ∧ s.length ≤ 200) →
      b.priority ≠ .undef → isValidPriority b.priority = false →
      putTask st now idStr b = (st, .error invalidPriorityErr)) := by
  constructor
  · intro st now b s hs ht hl hp
    have hb : titleBad b.title = false := by
      rw [hs]
      exact (titleBad_str_false_iff s).mpr ht
    have hl' : b.title.asStr.length ≤ 200 := by
      rw [hs]
      simpa [JVal.asStr] using hl
    exact ⟨_, _, postTask_ok hb hl', by simp [createRow, hp]⟩
  · intro st now idStr b t0 hfind htitle hne hp
    obtain ⟨h1, h2⟩ := titleCondsFalse htitle
    have h3 : (b.priority != JVal.undef && !isValidPriority b.priority) = true := by
      simp [bne_iff_ne, hne, hp]
    rw [putTask_found hfind]
    simp only [h1, h2, h3, Bool.false_eq_true, if_false, if_true]

/-- C2 amended witness: creating with priority "invalid" and a valid
title yields a medium-priority task; updating seeded task 1 with
priority "invalid" (and no title) fails with the priority error. -/
theorem spec_C2_amended_witness :
    (∃ st' t, postTask initStore 1 { title := .str "t", priority := .str "invalid" } =
        (st', .ok t) ∧ t.priority = "medium") ∧
    putTask initStore 2 "1" { priority := .str "invalid" } =
      (initStore, .error invalidPriorityErr) := by
  constructor
  · exact spec_C2_amended.1 initStore 1 { title := .str "t", priority := .str "invalid" }
      "t" rfl (by decide) (by decide) (by decide)
  · exact spec_C2_amended.2 initStore 2 "1" { priority := .str "invalid" }
      ⟨1, "Complete project documentation",
        .str "Write comprehensive docs for the TODO app", 0, "high",
        .str "2026-02-15", 0, 0⟩
      (by decide) (Or.inl rfl) (by decide) (by decide)

/-- C3: the list endpoint returns exactly the stored tasks satisfying
the conjunction of the selected filters (status active keeps completed
0, status completed keeps completed 1, a priority parameter equal to
one of the three levels keeps exactly that priority, anything else
applies no priority filter rather than failing); in particular
status=active never returns a completed record and priority=high never
returns a non-high record. -/
theorem spec_C3 (st : Store) (q : Query) :
    (getTasks st q).Perm (st.tasks.filter (claimFilter q)) ∧
    (∀ t ∈ getTasks st q, q.status = some "active" → t.completed = 0) ∧
    (∀ t ∈ getTasks st q, q.status = some "completed" → t.completed = 1) ∧
    (∀ t ∈ getTasks st q, ∀ p, q.priority = some p → p ∈ validPriorities →
      t.priority = p) := by
  have hfe : st.tasks.filter (whereClause q) = st.tasks.filter (claimFilter q) :=
    List.filter_congr (fun a _ => whereClause_eq_claimFilter q a)
  refine ⟨?_, ?_, ?_, ?_⟩
  · unfold getTasks
    rw [hfe]
    exact sortTasks_perm _ _
  · intro t ht hs
    unfold getTasks at ht
    have hw : whereClause q t = true := List.of_mem_filter (mem_sortTasks.mp ht)
    unfold whereClause at hw
    rw [hs] at hw
    rw [if_pos rfl] at hw
    exact beq_iff_eq.mp (Bool.and_eq_true_iff.mp hw).1
  · intro t ht hs
    unfold getTasks at ht
    have hw : whereClause q t = true := List.of_mem_filter (mem_sortTasks.mp ht)
    unfold whereClause at hw
    rw [hs] at hw
    rw [if_neg (by decide), if_pos rfl] at hw
    exact beq_iff_eq.mp (Bool.and_eq_true_iff.mp hw).1
  · intro t ht p hp hmem
    unfold getTasks at ht
    have hw : whereClause q t = true := List.of_mem_filter (mem_sortTasks.mp ht)
    unfold whereClause at hw
    rw [hp] at hw
    have hcont : (p != "" && validPriorities.contains p) = true := by
      have hc : p = "high" ∨ p = "medium" ∨ p = "low" := by
        simpa [validPriorities] using hmem
      rcases hc with rfl | rfl | rfl <;> decide
    have hB := (Bool.and_eq_true_iff.mp hw).2
    simp only [hcont, if_pos rfl] at hB
    exact beq_iff_eq.mp hB

/-- C3 witness: with status=active and priority=high on a store
holding a completed high task, an active high task and an active low
task, only the active high task is returned. -/
theorem spec_C3_witness :
    (⟨10, "a", .null, 0, "high", .null, 0, 0⟩ : Task) ∈
      getTasks ⟨[⟨10, "a", .null, 0, "high", .null, 0, 0⟩,
        ⟨11, "b", .null, 1, "high", .null, 0, 0⟩,
        ⟨12, "c", .null, 0, "low", .null, 0, 0⟩], 13⟩
        ⟨some "active", some "high", none⟩ ∧
    (⟨10, "a", .null, 0, "high", .null, 0, 0⟩ : Task).completed = 0 ∧
    (⟨10, "a", .null, 0, "high", .null, 0, 0⟩ : Task).priority = "high" := by
  have hmem : (⟨10, "a", .null, 0, "high", .null, 0, 0⟩ : Task) ∈
      getTasks ⟨[⟨10, "a", .null, 0, "high", .null, 0, 0⟩,
        ⟨11, "b", .null, 1, "high", .null, 0, 0⟩,
        ⟨12, "c", .null, 0, "low", .null, 0, 0⟩], 13⟩
        ⟨some "active", some "high", none⟩ := by
    unfold getTasks
    rw [mem_sortTasks]
    decide
  refine ⟨hmem, ?_, ?_⟩
  · exact (spec_C3 _ _).2.1 _ hmem rfl
  · exact (spec_C3 _ _).2.2.2 _ hmem "high" rfl (by decide)

/-- C4: in a list response sorted by priority, every high-priority
task appears before every medium-priority task and every
medium-priority task before every low-priority task (the fixed rank
high 1, medium 2, low 3 — not lexical order), for any store and any
filter selection. -/
theorem spec_C4 (st : Store) (s p : Option String) :
    (getTasks st ⟨s, p, some "priority"⟩).Pairwise
      (fun a b => (a.priority = "medium" → b.priority ≠ "high") ∧
        (a.priority = "low" → b.priority ≠ "high" ∧ b.priority ≠ "medium")) := by
  have hsorted : (getTasks st ⟨s, p, some "priority"⟩).Pairwise
      (fun a b => decide (priRank a.priority ≤ priRank b.priority) = true) := by
    unfold getTasks sortTasks
    dsimp only
    rw [if_neg (by decide), if_pos rfl]
    exact List.sorted_mergeSort
      (fun a b c hab hbc => by
        simp only [decide_eq_true_eq] at hab hbc ⊢
        omega)
      (fun a b => by
        rcases Nat.le_total (priRank a.priority) (priRank b.priority) with h | h <;>
          simp [h])
      _
  refine hsorted.imp ?_
  intro a b hab
  rw [decide_eq_true_eq] at hab
  constructor
  · intro ha hb
    rw [ha, hb] at hab
    exact absurd hab (by decide)
  · intro ha
    constructor <;> intro hb <;> rw [ha, hb] at hab <;> exact absurd hab (by decide)

/-- C4 witness: the sortedness guarantee at a concrete store holding
one task of each priority, listed with sort=priority. -/
theorem spec_C4_witness :
    (getTasks ⟨[⟨21, "l", .null, 0, "low", .null, 0, 0⟩,
        ⟨22, "h", .null, 0, "high", .null, 0, 0⟩,
        ⟨23, "m", .null, 0, "medium", .null, 0, 0⟩], 24⟩
      ⟨none, none, some "priority"⟩).Pairwise
      (fun a b => (a.priority = "medium" → b.priority ≠ "high") ∧
        (a.priority = "low" → b.priority ≠ "high" ∧ b.priority ≠ "medium")) :=
  spec_C4 ⟨[⟨21, "l", .null, 0, "low", .null, 0, 0⟩,
      ⟨22, "h", .null, 0, "high", .null, 0, 0⟩,
      ⟨23, "m", .null, 0, "medium", .null, 0, 0⟩], 24⟩ none none

theorem isValidPriority_asStr {v : JVal} (h : isValidPriority v = true) :
    v.asStr ∈ validPriorities := by
  cases v with
  | str s =>
    simp only [isValidPriority] at h
    simpa [JVal.asStr] using List.elem_iff.mp h
  | undef => simp [isValidPriority] at h
  | null => simp [isValidPriority] at h
  | bool b => simp [isValidPriority] at h
  | num n => simp [isValidPriority] at h

theorem createRow_good (id now : Nat) (b : ReqBody) : GoodTask (createRow id now b) := by
  constructor
  · exact Or.inl rfl
  · show (if b.priority.truthy && isValidPriority b.priority then b.priority.asStr
      else "medium") ∈ validPriorities
    split
    · rename_i hc
      exact isValidPriority_asStr (Bool.and_eq_true_iff.mp hc).2
    · decide

theorem mergeRow_good {b : ReqBody} {t0 : Task} (now : Nat)
    (hp : (b.priority != JVal.undef && !isValidPriority b.priority) = false)
    (h0 : GoodTask t0) : GoodTask (mergeRow now b t0) := by
  unfold GoodTask
  simp only [mergeRow]
  constructor
  · split
    · split
      · exact Or.inr rfl
      · exact Or.inl rfl
    · exact h0.1
  · split
    · rename_i hc
      rw [hc] at hp
      simp at hp
      exact isValidPriority_asStr hp
    · exact h0.2

theorem toggleRow_good (now : Nat) {t0 : Task} (h0 : GoodTask t0) :
    GoodTask (toggleRow now t0) := by
  constructor
  · show (if t0.completed == 1 then 0 else 1) = 0 ∨
      (if t0.completed == 1 then 0 else 1) = 1
    split
    · exact Or.inl rfl
    · exact Or.inr rfl
  · exact h0.2

theorem putTask_store (st : Store) (now : Nat) (idStr : String) (b : ReqBody) :
    (putTask st now idStr b).1 = st ∨
      ∃ t0, findTask st idStr = some t0 ∧
        (b.priority != JVal.undef && !isValidPriority b.priority) = false ∧
        (putTask st now idStr b).1.tasks =
          st.tasks.map (fun t => if t.id == t0.id then mergeRow now b t0 else t) := by
  unfold putTask
  split
  · exact Or.inl rfl
  · cases hf : findTask st idStr with
    | none => exact Or.inl rfl
    | some t0 =>
      dsimp only
      split
      · exact Or.inl rfl
      · split
        · exact Or.inl rfl
        · split
          · exact Or.inl rfl
          · rename_i h3
            exact Or.inr ⟨t0, rfl, by simpa using h3, rfl⟩

theorem toggleTask_store (st : Store) (now : Nat) (idStr : String) :
    (toggleTask st now idStr).1 = st ∨
      ∃ t0, findTask st idStr = some t0 ∧
        (toggleTask st now idStr).1.tasks =
          st.tasks.map (fun t => if t.id == t0.id then toggleRow now t0 else t) := by
  unfold toggleTask
  split
  · exact Or.inl rfl
  · cases hf : findTask st idStr with
    | none => exact Or.inl rfl
    | some t0 => exact Or.inr ⟨t0, rfl, rfl⟩

theorem deleteTask_subset (st : Store) (idStr : String) :
    ∀ t ∈ (deleteTask st idStr).1.tasks, t ∈ st.tasks := by
  intro t ht
  unfold deleteTask at ht
  split at ht
  · exact ht
  · split at ht
    · exact ht
    · split at ht
      · exact List.mem_of_mem_filter ht
      · exact ht

theorem applyOp_good (op : Op) {st : Store} (h : GoodStore st) :
    GoodStore (applyOp st op) := by
  cases op with
  | create now b =>
    show GoodStore (postTask st now b).1
    by_cases hb : titleBad b.title = true
    · rw [postTask_err_required hb]
      exact h
    · rw [Bool.not_eq_true] at hb
      by_cases hl : b.title.asStr.length ≤ 200
      · rw [postTask_ok hb hl]
        intro t ht
        rcases List.mem_append.mp ht with hm | hm
        · exact h t hm
        · rw [List.mem_singleton] at hm
          subst hm
          exact createRow_good _ _ _
      · rw [postTask_err_length hb (by omega)]
        exact h
  | update now idStr b =>
    show GoodStore (putTask st now idStr b).1
    rcases putTask_store st now idStr b with h1 | ⟨t0, hf, hpok, hts⟩
    · rw [h1]
      exact h
    · intro t ht
      rw [hts] at ht
      rcases List.mem_map.mp ht with ⟨x, hx, rfl⟩
      split
      · exact mergeRow_good now hpok (h t0 (mem_of_findTask hf))
      · exact h x hx
  | toggle now idStr =>
    show GoodStore (toggleTask st now idStr).1
    rcases toggleTask_store st now idStr with h1 | ⟨t0, hf, hts⟩
    · rw [h1]
      exact h
    · intro t ht
      rw [hts] at ht
      rcases List.mem_map.mp ht with ⟨x, hx, rfl⟩
      split
      · exact toggleRow_good now (h t0 (mem_of_findTask hf))
      · exact h x hx
  | remove idStr =>
    intro t ht
    exact h t (deleteTask_subset st idStr t ht)

theorem initStore_good : GoodStore initStore := by
  intro t ht
  simp only [initStore, List.mem_cons, List.not_mem_nil, or_false] at ht
  rcases ht with rfl | rfl | rfl <;> exact ⟨Or.inl rfl, by decide⟩

/-- C9: after any sequence of create, update, toggle and delete calls
starting from the seeded store, every stored task has completed 0 or 1
and priority high, medium or low: create normalizes any absent or
invalid priority to medium and starts completed at 0, update rejects
invalid priorities and coerces completed to 1/0, toggle only swaps 0
and 1, and delete only removes rows. -/
theorem spec_C9 (ops : List Op) : GoodStore (runOps initStore ops) := by
  have hgen : ∀ (l : List Op) (st : Store), GoodStore st → GoodStore (runOps st l) := by
    intro l
    induction l with
    | nil => intro st h; exact h
    | cons op rest ih =>
      intro st h
      exact ih _ (applyOp_good op h)
  exact hgen ops initStore initStore_good

/-- C9 witness: a create with an invalid priority yields a stored row
that still satisfies the invariant (priority medium, completed 0). -/
theorem spec_C9_witness :
    createRow 4 5 { title := .str "x", priority := .str "urgent" } ∈
      (runOps initStore [Op.create 5 { title := .str "x", priority := .str "urgent" }]).tasks ∧
    GoodTask (createRow 4 5 { title := .str "x", priority := .str "urgent" }) :=
  ⟨by decide,
    spec_C9 [Op.create 5 { title := .str "x", priority := .str "urgent" }] _ (by decide)⟩

end TodoApp
